import Mathlib

/-!
# Verification of the nebula-sdk-ts transport pipeline and error taxonomy

A shallow embedding of the request/response pipeline of the nebula-sdk-ts
client library (src/http.ts), its error hierarchy (src/errors.ts), the client
constructor (src/client.ts), and the record/schema resource modules
(src/modules/record.ts, src/modules/schema.ts), together with theorems about
the library's documented behaviour.

Conventions of the embedding:
* JavaScript/JSON values are modelled by the inductive type `Js`; JavaScript
  truthiness by `truthy`.  JSON numbers are modelled by `Int` (no claim under
  verification depends on fractional JSON values); record ids, which the code
  tests with `Number.isInteger`, are modelled by `Rat` so that non-integral
  ids are representable.
* `JSON.parse` is a platform function; the pipeline is parameterised by a
  function `parse : String -> Option Js` where `none` models a thrown
  `SyntaxError`.
* Thrown exceptions are modelled by `Except`: `Except.error` is a `throw`,
  `Except.ok` a normal return.
-/

namespace Nebula

/-- A JavaScript value as far as the SDK inspects it (the shapes produced by
`JSON.parse` plus the object literals the SDK itself builds). -/
inductive Js where
  | null
  | bool (b : Bool)
  | num (n : Int)
  | str (s : String)
  | arr (elems : List Js)
  | obj (fields : List (String × Js))
deriving Repr

/-- JavaScript truthiness of a value (`if (x)`).  Objects and arrays are
always truthy; `null`, `false`, `0` and the empty string are falsy. -/
def truthy : Js → Bool
  | .null => false
  | .bool b => b
  | .num n => n != 0
  | .str s => s != ""
  | .arr _ => true
  | .obj _ => true

/-- `typeof x === "object"` — true for objects, arrays and `null`. -/
def isObjectType : Js → Bool
  | .null => true
  | .arr _ => true
  | .obj _ => true
  | _ => false

/-- Property read `x.k` on an object (first binding wins, as the SDK never
builds duplicate keys); `none` models `undefined`. -/
def getField : Js → String → Option Js
  | .obj fs, k => fs.lookup k
  | _, _ => none

/-- `k in x` for a string key: only objects can carry it here (arrays carry
index keys only, which never collide with the keys the SDK probes). -/
def hasKey : Js → String → Bool
  | .obj fs, k => fs.any (fun f => f.1 == k)
  | _, _ => false

mutual

/-- String coercion of a value inside a template literal: the semantics of
JavaScript `String(x)` restricted to the shapes of `Js` (objects print as
`[object Object]`, arrays join their elements with commas). -/
def jsTemplateStr : Js → String
  | .null => "null"
  | .bool b => if b then "true" else "false"
  | .num n => toString n
  | .str s => s
  | .arr es => jsTemplateList es
  | .obj _ => "[object Object]"

/-- Comma-joined coercion of array elements, as `Array.prototype.toString`. -/
def jsTemplateList : List Js → String
  | [] => ""
  | [e] => jsTemplateStr e
  | e :: rest => jsTemplateStr e ++ "," ++ jsTemplateList rest

end

/-- Escape of a single character inside a JSON string literal, as produced by
`JSON.stringify` (control characters other than tab/newline/return are kept
verbatim; no claim depends on their encoding). -/
def jsonEscapeChar (c : Char) : String :=
  if c = Char.ofNat 34 then "\\\""
  else if c = Char.ofNat 92 then "\\\\"
  else if c = Char.ofNat 10 then "\\n"
  else if c = Char.ofNat 13 then "\\r"
  else if c = Char.ofNat 9 then "\\t"
  else String.mk [c]

/-- Escape of a whole string for a JSON document. -/
def jsonEscape (s : String) : String :=
  s.foldl (fun acc c => acc ++ jsonEscapeChar c) ""

mutual

/-- `JSON.stringify` on the shapes of `Js`. -/
def jsonStringify : Js → String
  | .null => "null"
  | .bool b => if b then "true" else "false"
  | .num n => toString n
  | .str s => "\"" ++ jsonEscape s ++ "\""
  | .arr es => "[" ++ jsonStringifyList es ++ "]"
  | .obj fs => "\x7b" ++ jsonStringifyFields fs ++ "\x7d"

/-- Serialization of array elements, comma separated. -/
def jsonStringifyList : List Js → String
  | [] => ""
  | [e] => jsonStringify e
  | e :: rest => jsonStringify e ++ "," ++ jsonStringifyList rest

/-- Serialization of object fields, comma separated. -/
def jsonStringifyFields : List (String × Js) → String
  | [] => ""
  | [f] => "\"" ++ jsonEscape f.1 ++ "\":" ++ jsonStringify f.2
  | f :: rest =>
    "\"" ++ jsonEscape f.1 ++ "\":" ++ jsonStringify f.2 ++ "," ++ jsonStringifyFields rest

end

/-! ## Error taxonomy (src/errors.ts)

The class hierarchy is flattened into a record `ApiErr` for the `ApiError`
branch (the `name` field is the class discriminant, exactly as set by each
constructor) and an inductive `NebulaFailure` for the whole taxonomy.  The
`message` field holds a `Js` value because `makeRequest` passes the raw
`error` field of the response body, which need not be a string. -/

/-- The data carried by `ApiError` and its subclasses: discriminant `name`,
message, HTTP status code, and the optional raw server payload. -/
structure ApiErr where
  name : String
  message : Js
  statusCode : Int
  errorData : Option Js
deriving Repr

/-- `new ApiError(message, statusCode, errorData)`. -/
def mkApiError (message : Js) (statusCode : Int) (errorData : Option Js) : ApiErr :=
  { name := "ApiError", message := message, statusCode := statusCode, errorData := errorData }

/-- `new AuthError(message, errorData)` — `super(message, 401, errorData)`. -/
def mkAuthError (message : Js) (errorData : Option Js) : ApiErr :=
  { mkApiError message 401 errorData with name := "AuthError" }

/-- `new ForbiddenError(message, errorData)` — status fixed to 403. -/
def mkForbiddenError (message : Js) (errorData : Option Js) : ApiErr :=
  { mkApiError message 403 errorData with name := "ForbiddenError" }

/-- `new NotFoundError(message, errorData)` — status fixed to 404. -/
def mkNotFoundError (message : Js) (errorData : Option Js) : ApiErr :=
  { mkApiError message 404 errorData with name := "NotFoundError" }

/-- `new BadRequestError(message, errorData)` — status fixed to 400. -/
def mkBadRequestError (message : Js) (errorData : Option Js) : ApiErr :=
  { mkApiError message 400 errorData with name := "BadRequestError" }

/-- `new RateLimitError(message, errorData)` — status fixed to 429. -/
def mkRateLimitError (message : Js) (errorData : Option Js) : ApiErr :=
  { mkApiError message 429 errorData with name := "RateLimitError" }

/-- `new ServerError(message, statusCode, errorData)` — the constructor clamps
the status code to at least 500 before passing it to `super`. -/
def mkServerError (message : Js) (statusCode : Int) (errorData : Option Js) : ApiErr :=
  let validStatusCode := if 500 ≤ statusCode then statusCode else 500
  { mkApiError message validStatusCode errorData with name := "ServerError" }

/-- The closed set of SDK failures: `NebulaError` (base, used by the client
constructor), `NetworkError`, its `TimeoutError` subclass, and the `ApiError`
branch. -/
inductive NebulaFailure where
  | nebula (message : String)
  | network (message : String)
  | timeout (message : String)
  | api (e : ApiErr)
deriving Repr

/-! ## Response processing (src/http.ts, makeRequest, lines 77–148)

The asynchronous dispatch (fetch, AbortController, timers) is outside the
shallow embedding; the pure classification of an already-received response is
modelled in full.  A received response is its status, its `content-type`
header and the result of `response.text()`. -/

/-- An HTTP response as `makeRequest` observes it. -/
structure NebulaResponse where
  status : Nat
  contentType : Option String
  bodyText : String
deriving Repr

/-- `response.ok` — status in the range 200–299. -/
def isOk (status : Nat) : Bool := 200 ≤ status && status < 300

/-- Whether the character list `needle` occurs contiguously in `haystack`. -/
def includesAux (needle : List Char) : List Char → Bool
  | [] => needle.isEmpty
  | c :: rest => needle.isPrefixOf (c :: rest) || includesAux needle rest

/-- `haystack.includes(needle)` for strings. -/
def strIncludes (haystack needle : String) : Bool :=
  includesAux needle.toList haystack.toList

/-- `contentType && contentType.includes("application/json")`. -/
def respIsJson (r : NebulaResponse) : Bool :=
  match r.contentType with
  | some ct => strIncludes ct "application/json"
  | none => false

/-- The `try` block of the body-parsing step: behaviour of
`if (text && isJson) JSON.parse(text) else if (text) ... else null`, where an
`Except.error` is a thrown `JSON.parse` `SyntaxError`. -/
def parseBodyText (parse : String → Option Js) (r : NebulaResponse) : Except Unit Js :=
  if r.bodyText ≠ "" ∧ respIsJson r = true then
    match parse r.bodyText with
    | some v => .ok v
    | none => .error ()
  else if r.bodyText ≠ "" then .ok (.obj [("message", .str r.bodyText)])
  else .ok .null

/-- The synthetic payload substituted when parsing fails on a non-ok
response. -/
def invalidJsonPayload (status : Nat) : Js :=
  .obj [("error", .str ("Received status " ++ toString status ++ " with invalid JSON body."))]

/-- The `catch` handler around body parsing: a parse failure on an ok response
is rethrown as a `NetworkError`; on a non-ok response it is replaced by the
synthetic payload. -/
def responseBodyOf (parse : String → Option Js) (r : NebulaResponse) :
    Except NebulaFailure Js :=
  match parseBodyText parse r with
  | .ok v => .ok v
  | .error _ =>
    if isOk r.status then
      .error (.network "Received non-JSON response from API when JSON was expected.")
    else
      .ok (invalidJsonPayload r.status)

/-- The `errorData` computed in the `!response.ok` branch: the parsed body
itself when it is a truthy object carrying an `error` key, otherwise a wrapper
around `responseBody?.message || "HTTP error! Status: <code>"` (JavaScript
`||`, i.e. falsy fallback). -/
def errorDataOf (status : Nat) (responseBody : Js) : Js :=
  if truthy responseBody && isObjectType responseBody && hasKey responseBody "error" then
    responseBody
  else
    .obj [("error",
      match getField responseBody "message" with
      | some m => if truthy m then m else .str ("HTTP error! Status: " ++ toString status)
      | none => .str ("HTTP error! Status: " ++ toString status))]

/-- `const errorMessage = errorData.error` (always defined: `errorDataOf`
yields an object with an `error` key in both branches). -/
def errorMessageOf (errorData : Js) : Js :=
  (getField errorData "error").getD .null

/-- The `switch (response.status)` that maps a non-ok response to a thrown
error.  The `default` branch throws `ServerError` for statuses ≥ 500 and the
generic `ApiError` otherwise. -/
def classifyStatus (status : Nat) (responseBody : Js) : NebulaFailure :=
  let errorData := errorDataOf status responseBody
  let errorMessage := errorMessageOf errorData
  if status = 400 then .api (mkBadRequestError errorMessage (some errorData))
  else if status = 401 then .api (mkAuthError errorMessage (some errorData))
  else if status = 403 then .api (mkForbiddenError errorMessage (some errorData))
  else if status = 404 then .api (mkNotFoundError errorMessage (some errorData))
  else if status = 429 then .api (mkRateLimitError errorMessage (some errorData))
  else if 500 ≤ status then .api (mkServerError errorMessage (status : Int) (some errorData))
  else
    .api (mkApiError (.str ("Unhandled API Error: " ++ jsTemplateStr errorMessage))
      (status : Int) (some errorData))

/-- The response half of `makeRequest`: the early `204 → null` return, body
parsing with the `catch` handler, then either the status-mapped throw or the
parsed body as the result. -/
def processResponse (parse : String → Option Js) (r : NebulaResponse) :
    Except NebulaFailure Js :=
  if r.status = 204 then .ok .null
  else
    match responseBodyOf parse r with
    | .error e => .error e
    | .ok responseBody =>
      if isOk r.status then .ok responseBody
      else .error (classifyStatus r.status responseBody)

/-! ## Request building (src/http.ts, makeRequest, lines 31–64) -/

/-- A query-parameter value as passed by callers.  The `Record` type in the
source admits strings, numbers and booleans; `undef`/`nullV` model the
`undefined`/`null` values the code explicitly skips. -/
inductive QVal where
  | undef
  | nullV
  | str (s : String)
  | num (n : Int)
  | bool (b : Bool)
deriving Repr, DecidableEq

/-- `String(value)` for a query-parameter value. -/
def qvalToString : QVal → String
  | .undef => "undefined"
  | .nullV => "null"
  | .str s => s
  | .num n => toString n
  | .bool b => if b then "true" else "false"

/-- `baseURL.replace(/\/$/, "")` — the anchored, non-global regex removes at
most one trailing slash. -/
def stripTrailingSlash (s : String) : String :=
  if s.back = '/' then s.dropRight 1 else s

/-- `path.replace(/^\//, "")` — removes at most one leading slash. -/
def stripLeadingSlash (s : String) : String :=
  if s.front = '/' then s.drop 1 else s

/-- The template `\x60${baseURL.replace(/\/$/, "")}/${path.replace(/^\//, "")}\x60`. -/
def joinURL (baseURL path : String) : String :=
  stripTrailingSlash baseURL ++ "/" ++ stripLeadingSlash path

/-- Whether a byte is serialized verbatim by `URLSearchParams` (the
`application/x-www-form-urlencoded` safe set: alphanumerics and `*-._`). -/
def isUrlencodedSafe (b : UInt8) : Bool :=
  (0x30 ≤ b && b ≤ 0x39) || (0x41 ≤ b && b ≤ 0x5A) || (0x61 ≤ b && b ≤ 0x7A) ||
  b = 0x2A || b = 0x2D || b = 0x2E || b = 0x5F

/-- Uppercase hexadecimal digit. -/
def hexDigit (n : Nat) : Char :=
  if n < 10 then Char.ofNat (48 + n) else Char.ofNat (55 + n)

/-- `%XX` percent-escape of one byte. -/
def percentByte (b : UInt8) : String :=
  "%" ++ String.mk [hexDigit (b.toNat / 16), hexDigit (b.toNat % 16)]

/-- One byte of `application/x-www-form-urlencoded` output (space becomes
`+`). -/
def formEncodeByte (b : UInt8) : String :=
  if isUrlencodedSafe b then String.mk [Char.ofNat b.toNat]
  else if b = 0x20 then "+"
  else percentByte b

/-- `application/x-www-form-urlencoded` encoding of a string (UTF-8 bytes,
as `URLSearchParams` serializes names and values). -/
def formEncode (s : String) : String :=
  (s.toUTF8.data.toList.map formEncodeByte).foldl (· ++ ·) ""

/-- The `forEach` loop over `Object.entries(queryParams)`: appends each entry
with a non-`undefined`, non-`null` value to the search-parameter list, in
iteration order, stringifying the value. -/
def appendSearchParams (ps : List (String × QVal)) : List (String × String) :=
  ps.foldl
    (fun acc kv =>
      match kv.2 with
      | .undef => acc
      | .nullV => acc
      | v => acc ++ [(kv.1, qvalToString v)])
    []

/-- Serialization of the search-parameter list, as `URL.toString` renders it. -/
def serializeSearchParams (l : List (String × String)) : String :=
  String.intercalate "&" (l.map fun kv => formEncode kv.1 ++ "=" ++ formEncode kv.2)

/-- The query-string suffix contributed by `url.searchParams`: empty when no
entry survived, otherwise `?` followed by the serialized entries. -/
def querySuffix (ps : List (String × QVal)) : String :=
  let sp := appendSearchParams ps
  if sp.isEmpty then "" else "?" ++ serializeSearchParams sp

/-- The final request URL string.  Models `new URL(...)` followed by
`url.toString()` as the identity on the joined string (exact for absolute
URLs whose path needs no normalization and contains no `?`/`#`, which is the
shape every module-built path has). -/
def buildRequestURL (baseURL path : String) (ps : List (String × QVal)) : String :=
  joinURL baseURL path ++ querySuffix ps

/-- Modelled from the spec: the fixed client identification string
(`USER_AGENT` from src/config.ts, which is not part of the source snapshot;
no claim depends on its value). -/
def USER_AGENT : String := "nebula-sdk-ts"

/-- `DEFAULT_TIMEOUT` (src/config.ts is absent from the snapshot; the spec
fixes the default at 30000 ms, matching the client constructor's default). -/
def DEFAULT_TIMEOUT : Nat := 30000

/-- The header record built by `makeRequest`: `Accept`, `User-Agent` and
`Authorization: ApiKey <key>` always; `Content-Type: application/json` only
when `if (body)` — JavaScript truthiness — holds. -/
def buildHeaders (apiKey : String) (body : Option Js) : List (String × String) :=
  let base := [("Accept", "application/json"), ("User-Agent", USER_AGENT),
               ("Authorization", "ApiKey " ++ apiKey)]
  match body with
  | some b => if truthy b then base ++ [("Content-Type", "application/json")] else base
  | none => base

/-- Header lookup by name. -/
def lookupHeader (hs : List (String × String)) (k : String) : Option String :=
  hs.lookup k

/-- `body ? JSON.stringify(body) : undefined` — the wire body. -/
def sentBody (body : Option Js) : Option String :=
  match body with
  | some b => if truthy b then some (jsonStringify b) else none
  | none => none

/-- The configuration slice `makeRequest` destructures from its context. -/
structure RequestContext where
  baseURL : String
  apiKey : String
  timeout : Option Nat
deriving Repr

/-- The request handed to the transport function. -/
structure BuiltRequest where
  url : String
  method : String
  headers : List (String × String)
  body : Option String
deriving Repr

/-- The request-building half of `makeRequest` (everything before the
dispatch). -/
def buildRequest (ctx : RequestContext) (path method : String)
    (queryParams : List (String × QVal)) (body : Option Js) : BuiltRequest :=
  { url := buildRequestURL ctx.baseURL path queryParams
    method := method
    headers := buildHeaders ctx.apiKey body
    body := sentBody body }

/-! ## Client construction (src/client.ts — NebulaClient.constructor) -/

/-- The schemes the WHATWG URL standard treats as special (requiring an
authority). -/
def specialSchemes : List String := ["http", "https", "ws", "wss", "ftp", "file"]

/-- Characters allowed in a URL scheme after the first. -/
def isSchemeChar (c : Char) : Bool :=
  c.isAlphanum || c = Char.ofNat 43 || c = Char.ofNat 45 || c = Char.ofNat 46

/-- Split a character list at the first occurrence of `sep`; `none` when
`sep` does not occur. -/
def splitFirst (sep : Char) : List Char → Option (List Char × List Char)
  | [] => none
  | c :: rest =>
    if c = sep then some ([], rest)
    else (splitFirst sep rest).map (fun p => (c :: p.1, p.2))

/-- Whether `new URL(s)` succeeds: a model of the WHATWG URL constructor's
acceptance — an alphabetic-initial scheme followed by `:`, and for the special
schemes an authority introduced by `//` with a non-empty host.  (The platform
parser additionally repairs special-scheme inputs with missing slashes; none
of the inputs the theorems below evaluate fall in that gap.) -/
def isValidURL (s : String) : Bool :=
  match splitFirst (Char.ofNat 58) s.toList with
  | none => false
  | some (schemeChars, remainder) =>
    match schemeChars with
    | [] => false
    | c :: cs =>
      c.isAlpha && cs.all isSchemeChar &&
      (if specialSchemes.contains (String.mk (schemeChars.map Char.toLower)) then
        match remainder with
        | a :: b :: rest =>
          a = Char.ofNat 47 && b = Char.ofNat 47 &&
          !(rest.takeWhile (fun ch => ch ≠ Char.ofNat 47)).isEmpty
        | _ => false
      else true)

/-- The caller-supplied configuration object (`NebulaClientConfig`):
`baseURL` and `apiKey` required by the type, `timeout` optional (`fetch` is a
function and stays outside the embedding). -/
structure NebulaClientConfig where
  baseURL : String
  apiKey : String
  timeout : Option Nat
deriving Repr

/-- The configuration after the constructor applied its defaults
(`Required<NebulaClientConfig>` minus the transport function). -/
structure ResolvedConfig where
  baseURL : String
  apiKey : String
  timeout : Nat
deriving Repr

/-- `NebulaClient`'s constructor: rejects a missing config or missing/empty
`baseURL`, rejects a `baseURL` that `new URL` cannot parse, then stores the
config with the 30000 ms default timeout applied.  `none` for the whole
config models calling with `undefined`.  The constructor performs no check
on `apiKey`. -/
def nebulaClientCtor (config : Option NebulaClientConfig) :
    Except NebulaFailure ResolvedConfig :=
  match config with
  | none => .error (.nebula "NebulaClient requires baseURL in configuration.")
  | some c =>
    if c.baseURL = "" then .error (.nebula "NebulaClient requires baseURL in configuration.")
    else if isValidURL c.baseURL then
      .ok { baseURL := c.baseURL, apiKey := c.apiKey, timeout := c.timeout.getD 30000 }
    else .error (.nebula ("Invalid baseURL provided: " ++ c.baseURL))

/-! ## Resource modules (src/modules/record.ts and src/modules/schema.ts)

Each module method either throws a plain `Error` during local validation
(`ModuleError.generic`) or reaches `makeRequest` with a path, method, query
parameters and body; the latter outcome is reified as a `ModuleRequest`, so
`Except.error` is exactly "the transport function was never invoked". -/

/-- A module-level failure: `generic` is a plain `new Error(...)` (outside the
SDK's typed taxonomy), `sdk` a taxonomy error propagated from the pipeline. -/
inductive ModuleError where
  | generic (message : String)
  | sdk (f : NebulaFailure)
deriving Repr

/-- The arguments a module method hands to `makeRequest`. -/
structure ModuleRequest where
  path : String
  method : String
  queryParams : List (String × QVal)
  body : Option Js
deriving Repr

/-- Whether a byte survives `encodeURIComponent` unescaped
(alphanumerics and `-_.!~*'()`). -/
def isUriComponentSafe (b : UInt8) : Bool :=
  (0x30 ≤ b && b ≤ 0x39) || (0x41 ≤ b && b ≤ 0x5A) || (0x61 ≤ b && b ≤ 0x7A) ||
  b = 0x2D || b = 0x2E || b = 0x5F || b = 0x7E ||
  b = 0x21 || b = 0x2A || b = 0x27 || b = 0x28 || b = 0x29

/-- `encodeURIComponent` (UTF-8 percent-encoding). -/
def encodeURIComponent (s : String) : String :=
  (s.toUTF8.data.toList.map
    (fun b => if isUriComponentSafe b then String.mk [Char.ofNat b.toNat] else percentByte b)).foldl
    (· ++ ·) ""

/-- `RecordModule.buildRecordPath`: rejects empty database/table names, and a
record id (when supplied) that is not a positive integer; otherwise builds the
percent-encoded resource path.  The id is a `Rat` so that the source's
`Number.isInteger` test (`den = 1`) and positivity test are both meaningful. -/
def buildRecordPath (dbName tableName : String) (recordId : Option Rat) :
    Except ModuleError String :=
  if dbName = "" then .error (.generic "Database name is required.")
  else if tableName = "" then .error (.generic "Table name is required.")
  else
    let path := "api/v1/databases/" ++ encodeURIComponent dbName ++ "/tables/" ++
      encodeURIComponent tableName ++ "/records"
    match recordId with
    | none => .ok path
    | some rid =>
      if rid.den ≠ 1 ∨ rid ≤ 0 then .error (.generic "Record ID must be a positive integer.")
      else .ok (path ++ "/" ++ toString rid.num)

/-- `Object.keys(x).length` for the payload check (arrays report their element
count, exactly as `Object.keys` does on an array). -/
def jsKeysLength : Js → Nat
  | .obj fs => fs.length
  | .arr es => es.length
  | _ => 0

/-- The payload guard of `RecordModule.create`/`update`:
`payload && typeof payload === "object" && Object.keys(payload).length > 0`. -/
def payloadIsValid (payload : Js) : Bool :=
  truthy payload && isObjectType payload && jsKeysLength payload != 0

/-- `RecordModule.create` up to the `makeRequest` call: payload guard first,
then the path builder; on success a `POST` with the payload as body. -/
def recordCreate (dbName tableName : String) (payload : Js) :
    Except ModuleError ModuleRequest :=
  if ¬ payloadIsValid payload then .error (.generic "Record data payload cannot be empty.")
  else
    match buildRecordPath dbName tableName none with
    | .error e => .error e
    | .ok path => .ok { path := path, method := "POST", queryParams := [], body := some payload }

/-- `RecordModule.list` up to the `makeRequest` call; `queryParams` is the
merged filter/options record (`undefined` option fields already dropped by the
merging code). -/
def recordList (dbName tableName : String) (queryParams : List (String × QVal)) :
    Except ModuleError ModuleRequest :=
  match buildRecordPath dbName tableName none with
  | .error e => .error e
  | .ok path => .ok { path := path, method := "GET", queryParams := queryParams, body := none }

/-- `RecordModule.get` up to the `makeRequest` call. -/
def recordGet (dbName tableName : String) (recordId : Rat) :
    Except ModuleError ModuleRequest :=
  match buildRecordPath dbName tableName (some recordId) with
  | .error e => .error e
  | .ok path => .ok { path := path, method := "GET", queryParams := [], body := none }

/-- `RecordModule.update` up to the `makeRequest` call: payload guard first,
then the path builder with the id. -/
def recordUpdate (dbName tableName : String) (recordId : Rat) (payload : Js) :
    Except ModuleError ModuleRequest :=
  if ¬ payloadIsValid payload then .error (.generic "Update payload cannot be empty.")
  else
    match buildRecordPath dbName tableName (some recordId) with
    | .error e => .error e
    | .ok path => .ok { path := path, method := "PUT", queryParams := [], body := some payload }

/-- `RecordModule.delete` up to the `makeRequest` call. -/
def recordDelete (dbName tableName : String) (recordId : Rat) :
    Except ModuleError ModuleRequest :=
  match buildRecordPath dbName tableName (some recordId) with
  | .error e => .error e
  | .ok path => .ok { path := path, method := "DELETE", queryParams := [], body := none }

/-- A column definition of a schema payload (src/types/schema.ts). -/
structure ColumnDefinition where
  name : String
  type : String
deriving Repr

/-- `SchemaPayload` (src/types/schema.ts). -/
structure SchemaPayload where
  table_name : String
  columns : List ColumnDefinition
deriving Repr

/-- The JSON value a schema payload serializes to. -/
def schemaPayloadJs (p : SchemaPayload) : Js :=
  .obj [("table_name", .str p.table_name),
        ("columns", .arr (p.columns.map fun c => .obj [("name", .str c.name), ("type", .str c.type)]))]

/-- `SchemaModule.define` up to the `makeRequest` call: rejects an empty
database name, a missing payload (`!payload`), an empty table name
(`!payload.table_name`) and an empty column list. -/
def schemaDefine (dbName : String) (payload : Option SchemaPayload) :
    Except ModuleError ModuleRequest :=
  if dbName = "" then .error (.generic "Database name is required.")
  else
    match payload with
    | none => .error (.generic "Table name and at least one column definition are required.")
    | some p =>
      if p.table_name = "" ∨ p.columns.length = 0 then
        .error (.generic "Table name and at least one column definition are required.")
      else
        .ok { path := "api/v1/databases/" ++ encodeURIComponent dbName ++ "/schema"
              method := "POST", queryParams := [], body := some (schemaPayloadJs p) }

/-! ## Spec-side definitions

`specStatusKind` restates the status→kind table of spec §4.1 in the spec's
own words, to be compared with the behaviour of `classifyStatus`. -/

/-- The spec's §4.1 table: 400 Bad-Request, 401 Auth, 403 Forbidden,
404 Not-Found, 429 Rate-Limit, ≥500 Server, anything else the generic API
kind — rendered with the `name` discriminants of src/errors.ts. -/
def specStatusKind (status : Nat) : String :=
  if status = 400 then "BadRequestError"
  else if status = 401 then "AuthError"
  else if status = 403 then "ForbiddenError"
  else if status = 404 then "NotFoundError"
  else if status = 429 then "RateLimitError"
  else if 500 ≤ status then "ServerError"
  else "ApiError"

/-- The guard `responseBody && typeof responseBody === "object" &&
"error" in responseBody` from the status-mapping block. -/
def isErrorPayload (b : Js) : Bool :=
  truthy b && isObjectType b && hasKey b "error"

/-! ## Helper lemmas -/

theorem isOk_eq_false_iff (s : Nat) : isOk s = false ↔ (s < 200 ∨ 300 ≤ s) := by
  simp [isOk]
  omega

theorem errorDataOf_errorObj {s : Nat} {b : Js} (h : isErrorPayload b = true) :
    errorDataOf s b = b := by
  unfold errorDataOf
  unfold isErrorPayload at h
  rw [if_pos h]

theorem classifyStatus_spec (s : Nat) (body : Js) :
    ∃ e : ApiErr, classifyStatus s body = .api e ∧ e.name = specStatusKind s ∧
      e.statusCode = (s : Int) ∧ e.errorData = some (errorDataOf s body) := by
  simp only [classifyStatus, specStatusKind]
  split_ifs with h1 h2 h3 h4 h5 h6
  · subst h1; exact ⟨_, rfl, rfl, by norm_num [mkBadRequestError, mkApiError], rfl⟩
  · subst h2; exact ⟨_, rfl, rfl, by norm_num [mkAuthError, mkApiError], rfl⟩
  · subst h3; exact ⟨_, rfl, rfl, by norm_num [mkForbiddenError, mkApiError], rfl⟩
  · subst h4; exact ⟨_, rfl, rfl, by norm_num [mkNotFoundError, mkApiError], rfl⟩
  · subst h5; exact ⟨_, rfl, rfl, by norm_num [mkRateLimitError, mkApiError], rfl⟩
  · refine ⟨_, rfl, rfl, ?_, rfl⟩
    show (if (500 : Int) ≤ (s : Int) then (s : Int) else 500) = (s : Int)
    rw [if_pos (by exact_mod_cast h6)]
  · exact ⟨_, rfl, rfl, rfl, rfl⟩

theorem specStatusKind_server {s : Nat} (h : 500 ≤ s) : specStatusKind s = "ServerError" := by
  have h1 : s ≠ 400 := by omega
  have h2 : s ≠ 401 := by omega
  have h3 : s ≠ 403 := by omega
  have h4 : s ≠ 404 := by omega
  have h5 : s ≠ 429 := by omega
  simp [specStatusKind, h1, h2, h3, h4, h5, h]

theorem specStatusKind_generic {s : Nat} (h1 : s ≠ 400) (h2 : s ≠ 401) (h3 : s ≠ 403)
    (h4 : s ≠ 404) (h5 : s ≠ 429) (h6 : s < 500) : specStatusKind s = "ApiError" := by
  simp [specStatusKind, h1, h2, h3, h4, h5]
  omega

theorem parseBodyText_of_parse_some {parse : String → Option Js} {r : NebulaResponse} {b : Js}
    (hj : respIsJson r = true) (hne : r.bodyText ≠ "") (hp : parse r.bodyText = some b) :
    parseBodyText parse r = .ok b := by
  simp [parseBodyText, hj, hne, hp]

theorem parseBodyText_of_parse_none {parse : String → Option Js} {r : NebulaResponse}
    (hj : respIsJson r = true) (hne : r.bodyText ≠ "") (hp : parse r.bodyText = none) :
    parseBodyText parse r = .error () := by
  simp [parseBodyText, hj, hne, hp]

theorem responseBodyOf_eq_ok_of_not_ok (parse : String → Option Js) (r : NebulaResponse)
    (h : isOk r.status = false) : ∃ v, responseBodyOf parse r = .ok v := by
  match hp : parseBodyText parse r with
  | .ok v => exact ⟨v, by simp [responseBodyOf, hp]⟩
  | .error u => exact ⟨invalidJsonPayload r.status, by simp [responseBodyOf, hp, h]⟩

theorem processResponse_error_of_not_ok (parse : String → Option Js) (r : NebulaResponse)
    {v : Js} (h : isOk r.status = false) (hv : responseBodyOf parse r = .ok v) :
    processResponse parse r = .error (classifyStatus r.status v) := by
  have h204 : r.status ≠ 204 := by
    intro hh
    rw [hh] at h
    exact absurd h (by decide)
  simp [processResponse, h204, hv, h]

/-! ## Claim theorems -/

/-- C10: every constructed error value of a fixed API sub-kind carries that
kind's fixed status code (Auth 401, Forbidden 403, Not-Found 404,
Bad-Request 400, Rate-Limit 429), and every Server-kind error carries a status
code ≥ 500, for all constructor arguments. -/
theorem errorKind_statusInvariant :
    (∀ m d, (mkAuthError m d).statusCode = 401) ∧
    (∀ m d, (mkForbiddenError m d).statusCode = 403) ∧
    (∀ m d, (mkNotFoundError m d).statusCode = 404) ∧
    (∀ m d, (mkBadRequestError m d).statusCode = 400) ∧
    (∀ m d, (mkRateLimitError m d).statusCode = 429) ∧
    (∀ m sc d, 500 ≤ (mkServerError m sc d).statusCode) := by
  refine ⟨fun _ _ => rfl, fun _ _ => rfl, fun _ _ => rfl, fun _ _ => rfl, fun _ _ => rfl, ?_⟩
  intro m sc d
  show (500 : Int) ≤ if 500 ≤ sc then sc else 500
  split_ifs with h
  · exact h
  · exact le_refl 500

/-- C5: `makeRequest` sets the `Authorization` header unconditionally, with
the single configured `ApiKey` scheme, for every credential value including
the empty string. -/
theorem authHeader_always_set (apiKey : String) (body : Option Js) :
    lookupHeader (buildHeaders apiKey body) "Authorization" = some ("ApiKey " ++ apiKey) := by
  cases body with
  | none => rfl
  | some b =>
    cases htb : truthy b
    · simp only [buildHeaders, htb, Bool.false_eq_true, if_false]
      rfl
    · simp only [buildHeaders, htb, if_true]
      rfl

/-- C1: a dispatched response with status 400/401/403/404/429 makes
`makeRequest` raise the error kind of the §4.1 table, carrying the original
status code and — when the body parsed to an object with an `error` field —
that parsed payload. -/
theorem mappedStatus_error_taxonomy (parse : String → Option Js) (r : NebulaResponse)
    (h : r.status = 400 ∨ r.status = 401 ∨ r.status = 403 ∨ r.status = 404 ∨ r.status = 429) :
    ∃ e : ApiErr, processResponse parse r = .error (.api e) ∧
      e.name = specStatusKind r.status ∧
      e.statusCode = (r.status : Int) ∧
      (∀ b : Js, respIsJson r = true → r.bodyText ≠ "" → parse r.bodyText = some b →
        isErrorPayload b = true → e.errorData = some b) := by
  have hnok : isOk r.status = false := by
    rcases h with h | h | h | h | h <;> rw [h] <;> decide
  obtain ⟨v, hv⟩ := responseBodyOf_eq_ok_of_not_ok parse r hnok
  obtain ⟨e, he, hname, hcode, hdata⟩ := classifyStatus_spec r.status v
  refine ⟨e, ?_, hname, hcode, ?_⟩
  · rw [processResponse_error_of_not_ok parse r hnok hv, he]
  · intro b hj hne hp hobj
    have hpb := parseBodyText_of_parse_some hj hne hp
    have hvb : responseBodyOf parse r = .ok b := by simp [responseBodyOf, hpb]
    rw [hv] at hvb
    injection hvb with hvb
    subst hvb
    rw [hdata, errorDataOf_errorObj hobj]

/-- Witness for C1 at a concrete 404 response carrying
`application/json` body `{"error": "Database not found"}`. -/
theorem mappedStatus_error_taxonomy_check :
    ∃ e : ApiErr,
      processResponse (fun _ => some (Js.obj [("error", Js.str "Database not found")]))
          ⟨404, some "application/json", "x"⟩ = .error (.api e) ∧
      e.name = specStatusKind 404 ∧
      e.statusCode = ((404 : Nat) : Int) ∧
      (∀ b : Js, respIsJson ⟨404, some "application/json", "x"⟩ = true → ("x" : String) ≠ "" →
        some (Js.obj [("error", Js.str "Database not found")]) = some b →
        isErrorPayload b = true → e.errorData = some b) :=
  mappedStatus_error_taxonomy _ _ (Or.inr (Or.inr (Or.inr (Or.inl rfl))))

/-- C2: a response with status ≥ 500 raises a Server-kind error preserving
the original status code; a non-2xx status outside the mapped set and below
500 raises the generic API error kind (never the Server kind), also with the
status code preserved. -/
theorem server_and_unmapped_classification (parse : String → Option Js) (r : NebulaResponse) :
    (500 ≤ r.status →
      ∃ e : ApiErr, processResponse parse r = .error (.api e) ∧
        e.name = "ServerError" ∧ e.statusCode = (r.status : Int) ∧ 500 ≤ e.statusCode) ∧
    (isOk r.status = false → r.status ≠ 400 → r.status ≠ 401 → r.status ≠ 403 →
        r.status ≠ 404 → r.status ≠ 429 → r.status < 500 →
      ∃ e : ApiErr, processResponse parse r = .error (.api e) ∧
        e.name = "ApiError" ∧ e.statusCode = (r.status : Int)) := by
  constructor
  · intro h
    have hnok : isOk r.status = false := by rw [isOk_eq_false_iff]; omega
    obtain ⟨v, hv⟩ := responseBodyOf_eq_ok_of_not_ok parse r hnok
    obtain ⟨e, he, hname, hcode, _⟩ := classifyStatus_spec r.status v
    refine ⟨e, ?_, ?_, hcode, ?_⟩
    · rw [processResponse_error_of_not_ok parse r hnok hv, he]
    · rw [hname, specStatusKind_server h]
    · rw [hcode]; exact_mod_cast h
  · intro hnok h1 h2 h3 h4 h5 h6
    obtain ⟨v, hv⟩ := responseBodyOf_eq_ok_of_not_ok parse r hnok
    obtain ⟨e, he, hname, hcode, _⟩ := classifyStatus_spec r.status v
    refine ⟨e, ?_, ?_, hcode⟩
    · rw [processResponse_error_of_not_ok parse r hnok hv, he]
    · rw [hname, specStatusKind_generic h1 h2 h3 h4 h5 h6]

/-- Witness for C2 at a concrete 503 response (Server kind, code kept) and a
concrete 418 response (generic API kind). -/
theorem server_and_unmapped_classification_check :
    (∃ e : ApiErr, processResponse (fun _ => none) ⟨503, none, ""⟩ = .error (.api e) ∧
      e.name = "ServerError" ∧ e.statusCode = ((503 : Nat) : Int) ∧ 500 ≤ e.statusCode) ∧
    (∃ e : ApiErr, processResponse (fun _ => none) ⟨418, none, ""⟩ = .error (.api e) ∧
      e.name = "ApiError" ∧ e.statusCode = ((418 : Nat) : Int)) :=
  ⟨(server_and_unmapped_classification (fun _ => none) ⟨503, none, ""⟩).1 (by decide),
   (server_and_unmapped_classification (fun _ => none) ⟨418, none, ""⟩).2 (by decide)
     (by decide) (by decide) (by decide) (by decide) (by decide) (by decide)⟩

/-- C7 counterexample: a 204 response (a 2xx status) whose body text fails to
parse as JSON does not raise a network-class error — `makeRequest` returns
`null` before ever reading the body, contradicting the claim's unrestricted
"if the response status is 2xx" clause. -/
theorem parseFailure_claim_cex :
    isOk 204 = true ∧
    processResponse (fun _ => none) ⟨204, some "application/json", "not json"⟩ = .ok .null :=
  ⟨by decide, rfl⟩

/-- C7 amended: for a response whose JSON body text fails to parse, a 2xx
status **other than 204** raises the network-class error, and a non-2xx status
proceeds with the synthetic payload
`{error: "Received status <code> with invalid JSON body."}` and raises the
status-mapped error carrying that payload. -/
theorem parseFailure_handling (parse : String → Option Js) (r : NebulaResponse)
    (hj : respIsJson r = true) (hne : r.bodyText ≠ "") (hp : parse r.bodyText = none) :
    (isOk r.status = true → r.status ≠ 204 →
      processResponse parse r =
        .error (.network "Received non-JSON response from API when JSON was expected.")) ∧
    (isOk r.status = false →
      ∃ e : ApiErr, processResponse parse r = .error (.api e) ∧
        e.name = specStatusKind r.status ∧ e.statusCode = (r.status : Int) ∧
        e.errorData = some (invalidJsonPayload r.status)) := by
  have hpb := parseBodyText_of_parse_none hj hne hp
  constructor
  · intro hok h204
    simp [processResponse, h204, responseBodyOf, hpb, hok]
  · intro hnok
    have hv : responseBodyOf parse r = .ok (invalidJsonPayload r.status) := by
      simp [responseBodyOf, hpb, hnok]
    obtain ⟨e, he, hname, hcode, hdata⟩ := classifyStatus_spec r.status (invalidJsonPayload r.status)
    refine ⟨e, ?_, hname, hcode, ?_⟩
    · rw [processResponse_error_of_not_ok parse r hnok hv, he]
    · rw [hdata, errorDataOf_errorObj (by rfl)]

/-- Witness for the amended C7: a 200 response with unparseable JSON raises
the network error; a 500 response with unparseable JSON raises the Server
error with the synthetic payload. -/
theorem parseFailure_handling_check :
    processResponse (fun _ => none) ⟨200, some "application/json", "oops"⟩ =
      .error (.network "Received non-JSON response from API when JSON was expected.") ∧
    (∃ e : ApiErr,
      processResponse (fun _ => none) ⟨500, some "application/json", "oops"⟩ = .error (.api e) ∧
      e.name = specStatusKind 500 ∧ e.statusCode = ((500 : Nat) : Int) ∧
      e.errorData = some (invalidJsonPayload 500)) :=
  ⟨(parseFailure_handling (fun _ => none) ⟨200, some "application/json", "oops"⟩
      (by decide) (by decide) rfl).1 (by decide) (by decide),
   (parseFailure_handling (fun _ => none) ⟨500, some "application/json", "oops"⟩
      (by decide) (by decide) rfl).2 (by decide)⟩

/-- C9: a 2xx response other than 204 with an empty body text resolves
successfully to `null`, for every parse function. -/
theorem emptyBody_resolves_null (parse : String → Option Js) (r : NebulaResponse)
    (hok : isOk r.status = true) (h204 : r.status ≠ 204) (hb : r.bodyText = "") :
    processResponse parse r = .ok .null := by
  have hpb : parseBodyText parse r = .ok .null := by simp [parseBodyText, hb]
  simp [processResponse, h204, responseBodyOf, hpb, hok]

/-- Witness for C9 at a concrete 200 response with an empty body. -/
theorem emptyBody_resolves_null_check :
    processResponse (fun _ => none) ⟨200, none, ""⟩ = .ok .null :=
  emptyBody_resolves_null (fun _ => none) ⟨200, none, ""⟩ (by decide) (by decide) rfl

theorem lookupHeader_base_ct (apiKey : String) :
    lookupHeader [("Accept", "application/json"), ("User-Agent", USER_AGENT),
      ("Authorization", "ApiKey " ++ apiKey)] "Content-Type" = none := rfl

theorem lookupHeader_full_ct (apiKey : String) :
    lookupHeader ([("Accept", "application/json"), ("User-Agent", USER_AGENT),
        ("Authorization", "ApiKey " ++ apiKey)] ++ [("Content-Type", "application/json")])
      "Content-Type" = some "application/json" := rfl

/-- C3 counterexample: calling `makeRequest` with the body argument `false`
— a provided body — sets no `Content-Type` header and sends no serialized
body, because the source guards with JavaScript truthiness (`if (body)`),
refuting "providing any body value always sets it". -/
theorem contentType_claim_cex :
    lookupHeader (buildHeaders "key" (some (.bool false))) "Content-Type" = none ∧
    sentBody (some (.bool false)) = none :=
  ⟨rfl, rfl⟩

/-- C3 amended: the request carries `Content-Type: application/json` iff a
**truthy** body argument was provided; a truthy body is serialized with
`JSON.stringify`, while a falsy body (`false`, `0`, `""`, `null`) behaves
exactly like an omitted one — no header and no wire body. -/
theorem contentType_iff_truthy_body (apiKey : String) (body : Option Js) :
    (lookupHeader (buildHeaders apiKey body) "Content-Type" = some "application/json" ↔
      ∃ b, body = some b ∧ truthy b = true) ∧
    (∀ b, body = some b → truthy b = true → sentBody body = some (jsonStringify b)) ∧
    (∀ b, body = some b → truthy b = false → sentBody body = none) ∧
    (body = none → sentBody body = none) := by
  refine ⟨?_, ?_, ?_, ?_⟩
  · cases body with
    | none =>
      simp only [buildHeaders]
      rw [lookupHeader_base_ct]
      simp
    | some b =>
      cases htb : truthy b
      · simp only [buildHeaders, htb, Bool.false_eq_true, if_false]
        rw [lookupHeader_base_ct]
        simp [htb]
      · simp only [buildHeaders, htb, if_true]
        rw [lookupHeader_full_ct]
        exact ⟨fun _ => ⟨b, rfl, htb⟩, fun _ => rfl⟩
  · intro b hb htb
    subst hb
    simp [sentBody, htb]
  · intro b hb htb
    subst hb
    simp [sentBody, htb]
  · intro hb
    subst hb
    rfl

/-- Witness for the amended C3: a non-empty object body yields the JSON
content-type header. -/
theorem contentType_iff_truthy_body_check :
    lookupHeader (buildHeaders "key" (some (Js.obj [("a", Js.num 1)]))) "Content-Type" =
      some "application/json" :=
  (contentType_iff_truthy_body "key" (some (Js.obj [("a", Js.num 1)]))).1.mpr
    ⟨Js.obj [("a", Js.num 1)], rfl, rfl⟩

/-- C4 (code-bug evaluation): the `NebulaClient` constructor accepts an empty
credential — the configuration `{baseURL: "http://test.com", apiKey: ""}`
constructs successfully even though the spec (and test/client.test.ts)
requires a configuration error — while an unparseable base address is
rejected as required. -/
theorem ctor_credential_not_validated :
    nebulaClientCtor (some { baseURL := "http://test.com", apiKey := "", timeout := none }) =
      .ok { baseURL := "http://test.com", apiKey := "", timeout := 30000 } ∧
    nebulaClientCtor (some { baseURL := "invalid", apiKey := "key", timeout := none }) =
      .error (.nebula "Invalid baseURL provided: invalid") :=
  ⟨rfl, rfl⟩

/-- C6 counterexample: with base address `http://x.com//` and path `p`, the
built URL keeps two slashes at the junction — the anchored regex strips only
one trailing slash — refuting "exactly one `/` separator" as universally
stated. -/
theorem urlJoin_claim_cex :
    buildRequestURL "http://x.com//" "p" [] = "http://x.com//p" ∧
    buildRequestURL "http://x.com//" "p" [] ≠ "http://x.com/p" :=
  ⟨rfl, by decide⟩

theorem appendSearchParams_eq_filterMap (ps : List (String × QVal)) :
    appendSearchParams ps = ps.filterMap (fun kv =>
      match kv.2 with
      | .undef => none
      | .nullV => none
      | v => some (kv.1, qvalToString v)) := by
  have gen : ∀ (l : List (String × QVal)) (acc : List (String × String)),
      l.foldl
        (fun acc kv =>
          match kv.2 with
          | .undef => acc
          | .nullV => acc
          | v => acc ++ [(kv.1, qvalToString v)])
        acc =
      acc ++ l.filterMap (fun kv =>
        match kv.2 with
        | .undef => none
        | .nullV => none
        | v => some (kv.1, qvalToString v)) := by
    intro l
    induction l with
    | nil => intro acc; simp
    | cons kv rest ih =>
      intro acc
      obtain ⟨k, v⟩ := kv
      cases v <;> simp [List.foldl_cons, List.filterMap_cons, ih]
  simpa using gen ps []

/-- C6 amended: provided the base address ends with at most one trailing slash
and the path begins with at most one leading slash (one stripping removes them
entirely), the built URL is the one-slash join of the stripped parts followed
by the query suffix, and the surviving query entries are exactly the
non-`undefined`/non-`null` entries, in insertion order, stringified for
URL-encoding. -/
theorem urlJoin_single_separator (baseURL path : String) (ps : List (String × QVal))
    (hb : baseURL.back = '/' → (baseURL.dropRight 1).back ≠ '/')
    (hp : path.front = '/' → (path.drop 1).front ≠ '/') :
    buildRequestURL baseURL path ps =
      stripTrailingSlash baseURL ++ "/" ++ stripLeadingSlash path ++ querySuffix ps ∧
    (stripTrailingSlash baseURL).back ≠ '/' ∧
    (stripLeadingSlash path).front ≠ '/' ∧
    appendSearchParams ps = ps.filterMap (fun kv =>
      match kv.2 with
      | .undef => none
      | .nullV => none
      | v => some (kv.1, qvalToString v)) := by
  refine ⟨rfl, ?_, ?_, appendSearchParams_eq_filterMap ps⟩
  · unfold stripTrailingSlash
    split_ifs with h
    · exact hb h
    · exact h
  · unfold stripLeadingSlash
    split_ifs with h
    · exact hp h
    · exact h

/-- Witness for the amended C6 at concrete parts, with one skipped (`null`)
entry and two surviving ones. -/
theorem urlJoin_single_separator_check :
    buildRequestURL "http://x.com/" "/p" [("a", .str "b c"), ("skip", .nullV), ("n", .num 7)] =
      stripTrailingSlash "http://x.com/" ++ "/" ++ stripLeadingSlash "/p" ++
        querySuffix [("a", .str "b c"), ("skip", .nullV), ("n", .num 7)] ∧
    (stripTrailingSlash "http://x.com/").back ≠ '/' ∧
    (stripLeadingSlash "/p").front ≠ '/' ∧
    appendSearchParams [("a", .str "b c"), ("skip", .nullV), ("n", .num 7)] =
      ([("a", .str "b c"), ("skip", .nullV), ("n", .num 7)] : List (String × QVal)).filterMap
        (fun kv =>
          match kv.2 with
          | .undef => none
          | .nullV => none
          | v => some (kv.1, qvalToString v)) :=
  urlJoin_single_separator "http://x.com/" "/p" [("a", .str "b c"), ("skip", .nullV), ("n", .num 7)]
    (by decide) (by decide)

theorem buildRecordPath_invalid (db tb : String) (rid? : Option Rat)
    (h : db = "" ∨ tb = "" ∨ (∃ rid, rid? = some rid ∧ (rid.den ≠ 1 ∨ rid ≤ 0))) :
    ∃ m, buildRecordPath db tb rid? = .error (.generic m) := by
  rcases h with h | h | ⟨rid, hrid, h⟩
  · exact ⟨"Database name is required.", by simp [buildRecordPath, h]⟩
  · by_cases hdb : db = ""
    · exact ⟨"Database name is required.", by simp [buildRecordPath, hdb]⟩
    · exact ⟨"Table name is required.", by simp [buildRecordPath, hdb, h]⟩
  · subst hrid
    by_cases hdb : db = ""
    · exact ⟨"Database name is required.", by simp [buildRecordPath, hdb]⟩
    · by_cases htb : tb = ""
      · exact ⟨"Table name is required.", by simp [buildRecordPath, hdb, htb]⟩
      · refine ⟨"Record ID must be a positive integer.", ?_⟩
        simp only [buildRecordPath, hdb, htb, if_false, if_neg hdb, if_neg htb]
        rw [if_pos h]

/-- C8: every record-module and schema-module call with invalid local input
(empty database name, empty table name, empty payload object, or a record id
that is not a positive integer) fails with a generic validation error — the
`ModuleError.generic` constructor, a plain `Error` outside the pipeline's
taxonomy — and, the result being `Except.error`, the transport function is
never invoked. -/
theorem module_local_validation :
    (∀ db tb payload, db = "" ∨ tb = "" ∨ payloadIsValid payload = false →
      ∃ m, recordCreate db tb payload = .error (.generic m)) ∧
    (∀ db tb qs, db = "" ∨ tb = "" →
      ∃ m, recordList db tb qs = .error (.generic m)) ∧
    (∀ db tb (rid : Rat), db = "" ∨ tb = "" ∨ rid.den ≠ 1 ∨ rid ≤ 0 →
      ∃ m, recordGet db tb rid = .error (.generic m)) ∧
    (∀ db tb (rid : Rat) payload,
        db = "" ∨ tb = "" ∨ rid.den ≠ 1 ∨ rid ≤ 0 ∨ payloadIsValid payload = false →
      ∃ m, recordUpdate db tb rid payload = .error (.generic m)) ∧
    (∀ db tb (rid : Rat), db = "" ∨ tb = "" ∨ rid.den ≠ 1 ∨ rid ≤ 0 →
      ∃ m, recordDelete db tb rid = .error (.generic m)) ∧
    (∀ db p, db = "" ∨ p = none ∨
        (∃ q, p = some q ∧ (q.table_name = "" ∨ q.columns.length = 0)) →
      ∃ m, schemaDefine db p = .error (.generic m)) := by
  refine ⟨?_, ?_, ?_, ?_, ?_, ?_⟩
  · intro db tb payload h
    by_cases hpv : payloadIsValid payload = true
    · have hnames : db = "" ∨ tb = "" := by
        rcases h with h | h | h
        · exact Or.inl h
        · exact Or.inr h
        · rw [hpv] at h; exact absurd h (by simp)
      obtain ⟨m, hm⟩ := buildRecordPath_invalid db tb none
        (by rcases hnames with h' | h' <;> [exact Or.inl h'; exact Or.inr (Or.inl h')])
      exact ⟨m, by simp [recordCreate, hpv, hm]⟩
    · exact ⟨"Record data payload cannot be empty.", by simp [recordCreate, hpv]⟩
  · intro db tb qs h
    obtain ⟨m, hm⟩ := buildRecordPath_invalid db tb none
      (by rcases h with h' | h' <;> [exact Or.inl h'; exact Or.inr (Or.inl h')])
    exact ⟨m, by simp [recordList, hm]⟩
  · intro db tb rid h
    have hrest : db = "" ∨ tb = "" ∨ (∃ r, (some rid : Option Rat) = some r ∧
        (r.den ≠ 1 ∨ r ≤ 0)) := by
      rcases h with h | h | h | h
      · exact Or.inl h
      · exact Or.inr (Or.inl h)
      · exact Or.inr (Or.inr ⟨rid, rfl, Or.inl h⟩)
      · exact Or.inr (Or.inr ⟨rid, rfl, Or.inr h⟩)
    obtain ⟨m, hm⟩ := buildRecordPath_invalid db tb (some rid) hrest
    exact ⟨m, by simp [recordGet, hm]⟩
  · intro db tb rid payload h
    by_cases hpv : payloadIsValid payload = true
    · have hrest : db = "" ∨ tb = "" ∨ (∃ r, (some rid : Option Rat) = some r ∧
          (r.den ≠ 1 ∨ r ≤ 0)) := by
        rcases h with h | h | h | h | h
        · exact Or.inl h
        · exact Or.inr (Or.inl h)
        · exact Or.inr (Or.inr ⟨rid, rfl, Or.inl h⟩)
        · exact Or.inr (Or.inr ⟨rid, rfl, Or.inr h⟩)
        · rw [hpv] at h; exact absurd h (by simp)
      obtain ⟨m, hm⟩ := buildRecordPath_invalid db tb (some rid) hrest
      exact ⟨m, by simp [recordUpdate, hpv, hm]⟩
    · exact ⟨"Update payload cannot be empty.", by simp [recordUpdate, hpv]⟩
  · intro db tb rid h
    have hrest : db = "" ∨ tb = "" ∨ (∃ r, (some rid : Option Rat) = some r ∧
        (r.den ≠ 1 ∨ r ≤ 0)) := by
      rcases h with h | h | h | h
      · exact Or.inl h
      · exact Or.inr (Or.inl h)
      · exact Or.inr (Or.inr ⟨rid, rfl, Or.inl h⟩)
      · exact Or.inr (Or.inr ⟨rid, rfl, Or.inr h⟩)
    obtain ⟨m, hm⟩ := buildRecordPath_invalid db tb (some rid) hrest
    exact ⟨m, by simp [recordDelete, hm]⟩
  · intro db p h
    by_cases hdb : db = ""
    · exact ⟨"Database name is required.", by simp [schemaDefine, hdb]⟩
    · rcases h with h | h | ⟨q, hq, h⟩
      · exact absurd h hdb
      · subst h
        exact ⟨"Table name and at least one column definition are required.",
          by simp [schemaDefine, hdb]⟩
      · subst hq
        refine ⟨"Table name and at least one column definition are required.", ?_⟩
        simp only [schemaDefine, hdb, if_false, if_neg hdb]
        rw [if_pos h]

/-- Witness for C8: a concrete empty database name in `recordCreate`, the
concrete non-positive record id `0` in `recordGet`, and a concrete empty
column list in `schemaDefine` all fail with generic validation errors. -/
theorem module_local_validation_check :
    (∃ m, recordCreate "" "users" (Js.obj [("a", Js.num 1)]) = .error (.generic m)) ∧
    (∃ m, recordGet "db" "users" (0 : Rat) = .error (.generic m)) ∧
    (∃ m, schemaDefine "db" (some ⟨"users", []⟩) = .error (.generic m)) :=
  ⟨module_local_validation.1 "" "users" (Js.obj [("a", Js.num 1)]) (Or.inl rfl),
   module_local_validation.2.2.1 "db" "users" (0 : Rat)
     (Or.inr (Or.inr (Or.inr (le_refl (0 : Rat))))),
   module_local_validation.2.2.2.2.2 "db" (some ⟨"users", []⟩)
     (Or.inr (Or.inr ⟨⟨"users", []⟩, rfl, Or.inr rfl⟩))⟩

end Nebula
